import Mathlib

/-! # disko: asset resolution and BMC session lifecycle

A shallow embedding of

* `internal/store/serverservice.go` and `internal/store/serverservice_attrs.go`
  (`findAttribute`, `bmcAddressFromAttributes`, `vendorModelFromAttributes`,
  `registerMetric`, `AssetByID`), and
* `internal/bmc/bmc.go` (`Open`, `Close`, `PowerStatus`, `SetPowerState`),

followed by theorems about them.

Conventions of the embedding:

* a Go `error` is an `Option GoError` (`none` is the nil error);
* a Go pointer result (`*model.Asset`, `*bmclibv2.Client`) is an `Option`
  (`none` is the nil pointer);
* a `net.IP` is an optional byte list (`none` is the nil slice, `some []` is
  the empty non-nil slice `net.IP{}`);
* functions with side effects return, next to their results, the list of the
  effects they performed, in program order;
* functions of imported packages (`uuid.Parse`, `json.Unmarshal`,
  `net.ParseIP`, `common.FormatVendorName`, `common.FormatProductName`) and the
  constants of imported packages are fields of `Library`; every theorem that
  takes a `Library` holds for all of them;
* the answers of the remote inventory service and of the BMC are fields of
  `Client`, `Hardware` and `Controller`;
* the method `loginWithRetries` of `bmc`, which `Open` calls, is not among the
  sources and is modelled from the spec, together with the session state it
  keeps.
-/

set_option autoImplicit false

namespace Disko

/-! ## Error values (`github.com/pkg/errors`) -/

/-- A non-nil Go error value. `sentinel` is a package-level variable of this
repository made with `errors.New`; `foreign` is an error value produced by an
imported package or a remote call; `wrap` is the result of `errors.Wrap`. -/
inductive GoError where
  | sentinel (msg : String)
  | foreign (msg : String)
  | wrap (cause : GoError) (message : String)
deriving DecidableEq, Repr

namespace GoError

/-- The method `Error()`: a wrapped error prints as `message: cause`. -/
def Error : GoError → String
  | sentinel msg => msg
  | foreign msg => msg
  | wrap cause message => message ++ ": " ++ Error cause

/-- The function `errors.Cause`: the innermost error of a chain of wraps. -/
def Cause : GoError → GoError
  | wrap cause _ => Cause cause
  | e => e

end GoError

/-- The function `errors.Wrap` on a non-nil error. -/
def Wrap (err : GoError) (message : String) : GoError :=
  GoError.wrap err message

/-! ## Contexts (`context`) -/

/-- A `context.Context`, as far as this code can tell contexts apart: whether
it is already cancelled, and the time left until its deadline (a
`time.Duration`, in nanoseconds), if it has one. -/
structure Context where
  cancelled : Bool
  timeout : Option Nat
deriving DecidableEq, Repr

namespace Context

/-- The function `context.Background()`: never cancelled, no deadline. -/
def Background : Context :=
  { cancelled := false, timeout := none }

/-- The function `context.WithTimeout(parent, d)`: inherits cancellation, and
its deadline is the earlier of the parent's and `d` from now. -/
def WithTimeout (parent : Context) (d : Nat) : Context :=
  { cancelled := parent.cancelled
    timeout := match parent.timeout with
      | none => some d
      | some p => some (min p d) }

end Context

/-- The constant `time.Second`, in nanoseconds. -/
def Second : Nat := 1000000000

/-- The constant `time.Minute`, in nanoseconds. -/
def Minute : Nat := 60 * Second

/-! ## Data model (`internal/model/model.go` and the inventory records) -/

/-- A `uuid.UUID`: sixteen bytes. -/
abbrev UUID := List Nat

/-- A `net.IP`: `none` is the nil slice. -/
abbrev IP := Option (List Nat)

/-- A `json.RawMessage`: the undecoded bytes of a payload. -/
abbrev RawMessage := String

/-- A Go `map[string]string`. -/
abbrev StringMap := List (String × String)

/-- The index expression `m[key]` on a `map[string]string`: the zero value
`""` when the key is absent. -/
def mapIndex (m : StringMap) (key : String) : String :=
  (m.lookup key).getD ""

/-- The fields of `sservice.Attributes` that the store reads. -/
structure Attributes where
  Namespace : String
  Data : RawMessage
deriving DecidableEq, Repr

/-- The fields of `sservice.ServerCredential` that the store reads. -/
structure ServerCredential where
  Username : String
  Password : String
deriving DecidableEq, Repr

/-- The fields of `sservice.Server` that the store reads. -/
structure Server where
  FacilityCode : String
  Attributes : List Attributes
deriving DecidableEq, Repr

/-- The struct `model.Asset`. -/
structure Asset where
  ID : UUID
  BmcAddress : IP := none
  BmcUsername : String := ""
  BmcPassword : String := ""
  Vendor : String := ""
  Model : String := ""
  Serial : String := ""
  FacilityCode : String := ""
deriving DecidableEq, Repr

/-! ## Imported packages and remote services -/

/-- The functions and constants of imported packages that the store uses. -/
structure Library where
  /-- The function `uuid.Parse`. -/
  uuidParse : String → Except GoError UUID
  /-- The function `json.Unmarshal(data, &m)` for an empty `m` of type
  `map[string]string`: the error, or the filled map. -/
  jsonUnmarshal : RawMessage → Except GoError StringMap
  /-- The function `net.ParseIP`: nil when the text is not an address. -/
  ParseIP : String → IP
  /-- The function `common.FormatVendorName`. -/
  FormatVendorName : String → String
  /-- The function `common.FormatProductName`. -/
  FormatProductName : String → String
  /-- The constant `sconsts.ServerAttributeNSBmcAddress`. -/
  ServerAttributeNSBmcAddress : String
  /-- The constant `sconsts.ServerAttributeNSVendor`. -/
  ServerAttributeNSVendor : String
  /-- The constant `sservice.ServerCredentialTypeBMC`. -/
  ServerCredentialTypeBMC : String

/-- The answers of the inventory service to the two calls of `AssetByID` on
`s.client`: an error, or (with a nil error) the record. -/
structure Client where
  /-- The method `GetCredential(ctx, id, kind)`. -/
  GetCredential : Context → UUID → String → Except GoError ServerCredential
  /-- The method `Get(ctx, id)`. -/
  Get : Context → UUID → Except GoError Server

/-- What `AssetByID` does besides computing its results. -/
inductive Effect where
  /-- A tracing span is started: `otel.Tracer(pkgName).Start(ctx, name)`. -/
  | spanStart (name : String)
  /-- The deferred `span.End()`. -/
  | spanEnd
  /-- The remote call `s.client.GetCredential(ctx, id, kind)`. -/
  | GetCredential (id : UUID) (kind : String)
  /-- The remote call `s.client.Get(ctx, id)`. -/
  | Get (id : UUID)
  /-- The counter `metrics.StoreQueryErrorCount` with these labels is
  incremented by one. -/
  | metricInc (storeKind queryKind : String)
  /-- The log line `s.logger.WithError(err).Warn(msg)`. -/
  | logWarn (err : GoError) (msg : String)
deriving DecidableEq, Repr

/-- The labels of the increments of `metrics.StoreQueryErrorCount` in a list of
effects, in order. -/
def metricIncs : List Effect → List (String × String)
  | [] => []
  | Effect.metricInc storeKind queryKind :: rest => (storeKind, queryKind) :: metricIncs rest
  | _ :: rest => metricIncs rest

/-- The remote inventory calls in a list of effects, in order. -/
def remoteCalls : List Effect → List Effect
  | [] => []
  | Effect.GetCredential id kind :: rest => Effect.GetCredential id kind :: remoteCalls rest
  | Effect.Get id :: rest => Effect.Get id :: remoteCalls rest
  | _ :: rest => remoteCalls rest

/-! ## `internal/store/serverservice.go`: error variables -/

def ErrVendorModelAttributes : GoError :=
  GoError.sentinel "device vendor, model attributes not found in serverservice"

def ErrDeviceID : GoError :=
  GoError.sentinel "device UUID error"

def ErrBMCAddress : GoError :=
  GoError.sentinel "error in server BMC Address"

def ErrServerserviceQuery : GoError :=
  GoError.sentinel "serverservice query returned error"

/-! ## `internal/store/serverservice_attrs.go` -/

/-- The function `findAttribute`: the first attribute of the list, in order,
whose namespace is `ns`; nil when there is none. -/
def findAttribute (ns : String) : List Attributes → Option Attributes
  | [] => none
  | attr :: rest =>
    if attr.Namespace = ns then some attr else findAttribute ns rest

/-- The method `bmcAddressFromAttributes`. -/
def bmcAddressFromAttributes (L : Library) (attributes : List Attributes) :
    IP × Option GoError :=
  let ip : IP := some []
  match findAttribute L.ServerAttributeNSBmcAddress attributes with
  | none => (ip, some (Wrap ErrBMCAddress ("not found: " ++ L.ServerAttributeNSBmcAddress)))
  | some bmcAttribute =>
    match L.jsonUnmarshal bmcAttribute.Data with
    | Except.error err => (ip, some (Wrap ErrBMCAddress err.Error))
    | Except.ok data =>
      if mapIndex data "address" = "" then
        (ip, some (Wrap ErrBMCAddress ("value undefined: " ++ L.ServerAttributeNSBmcAddress)))
      else
        (L.ParseIP (mapIndex data "address"), none)

/-- The method `vendorModelFromAttributes`: the results `deviceVendor`,
`deviceModel`, `deviceSerial` and `err`. -/
def vendorModelFromAttributes (L : Library) (attributes : List Attributes) :
    String × String × String × Option GoError :=
  match findAttribute L.ServerAttributeNSVendor attributes with
  | none => ("", "", "", some ErrVendorModelAttributes)
  | some vendorAttribute =>
    match L.jsonUnmarshal vendorAttribute.Data with
    | Except.error err =>
      ("", "", "", some (Wrap ErrVendorModelAttributes ("server vendor attribute: " ++ err.Error)))
    | Except.ok vendorAttrs =>
      let deviceVendor := L.FormatVendorName (mapIndex vendorAttrs "vendor")
      let deviceModel := L.FormatProductName (mapIndex vendorAttrs "model")
      let deviceSerial := mapIndex vendorAttrs "serial"
      if deviceVendor = "" then
        (deviceVendor, deviceModel, deviceSerial,
          some (Wrap ErrVendorModelAttributes "device vendor unknown"))
      else if deviceModel = "" then
        (deviceVendor, deviceModel, deviceSerial,
          some (Wrap ErrVendorModelAttributes "device model unknown"))
      else
        (deviceVendor, deviceModel, deviceSerial, none)

/-! ## `internal/store/serverservice.go` -/

/-- The method `registerMetric`. -/
def registerMetric (queryKind : String) : List Effect :=
  [Effect.metricInc "serverservice" queryKind]

/-- The body of `AssetByID` between the start of the span and the deferred
`span.End()`: the results and the effects. -/
def AssetByID.body (L : Library) (c : Client) (ctx : Context) (id : String) :
    (Option Asset × Option GoError) × List Effect :=
  match L.uuidParse id with
  | Except.error err => ((none, some (Wrap ErrDeviceID (err.Error ++ id))), [])
  | Except.ok deviceUUID =>
    let asset : Asset := { ID := deviceUUID }
    -- query credentials
    let log := [Effect.GetCredential deviceUUID L.ServerCredentialTypeBMC]
    match c.GetCredential ctx deviceUUID L.ServerCredentialTypeBMC with
    | Except.error err =>
      ((none, some (Wrap ErrServerserviceQuery ("GetCredential: " ++ err.Error))),
        log ++ registerMetric "GetCredential")
    | Except.ok credential =>
      let asset := { asset with
        BmcUsername := credential.Username, BmcPassword := credential.Password }
      -- query the server object
      let log := log ++ [Effect.Get deviceUUID]
      match c.Get ctx deviceUUID with
      | Except.error err =>
        ((none, some (Wrap ErrServerserviceQuery ("GetServer: " ++ err.Error))),
          log ++ registerMetric "GetServer")
      | Except.ok srv =>
        let asset := { asset with FacilityCode := srv.FacilityCode }
        -- set bmc address
        match bmcAddressFromAttributes L srv.Attributes with
        | (_, some err) => ((none, some err), log)
        | (address, none) =>
          let asset := { asset with BmcAddress := address }
          -- set asset vendor attributes
          match vendorModelFromAttributes L srv.Attributes with
          | (vendor, model, serial, verr) =>
            let asset := { asset with Vendor := vendor, Model := model, Serial := serial }
            match verr with
            | some err =>
              ((some asset, none),
                log ++ [Effect.logWarn err ErrVendorModelAttributes.Error])
            | none => ((some asset, none), log)

/-- The method `AssetByID`: the returned `(*model.Asset, error)` and the
effects, in order. -/
def AssetByID (L : Library) (c : Client) (ctx : Context) (id : String) :
    (Option Asset × Option GoError) × List Effect :=
  let r := AssetByID.body L c ctx id
  (r.1, [Effect.spanStart "Serverservice.AssetByID"] ++ r.2 ++ [Effect.spanEnd])

/-! ## `internal/bmc/bmc.go` -/

/-- The variable `logoutTimeout`: the timeout value when logging out of a bmc. -/
def logoutTimeout : Nat := 1 * Minute

/-- The variable `errBMCLogout`. -/
def errBMCLogout : GoError :=
  GoError.sentinel "bmc logout error"

/-- The struct `bmclibv2.Auth`. -/
structure Auth where
  Host : String
  User : String
  Pass : String
deriving DecidableEq, Repr

/-- The fields of `bmclibv2.Client` that `bmc.go` reads. -/
structure BmclibClient where
  Auth : Auth
deriving DecidableEq, Repr

/-- The struct `bmc`: `client` is a pointer, `none` when nil. -/
structure bmc where
  client : Option BmclibClient
deriving DecidableEq, Repr

/-- The answers of the BMC to the calls that `bmc.go` makes through the
bmclib client. -/
structure Hardware where
  /-- The method `b.client.Close(ctx)`: the logout, and its error. -/
  Close : BmclibClient → Context → Option GoError

/-- What a method of `bmc` does besides computing its results. -/
inductive BmcEffect where
  /-- A tracing span is started: `otel.Tracer(pkgName).Start(ctx, name)`. -/
  | spanStart (ctx : Context) (name : String)
  /-- The call `span.SetAttributes(attribute.String(key, value))`. -/
  | spanSetAttributes (key value : String)
  /-- The deferred `span.End()`. -/
  | spanEnd
  /-- The logout call to the hardware, `b.client.Close(ctx)`. -/
  | logout (ctx : Context)
  /-- The log line `b.logger.Debug(msg)`. -/
  | logDebug (msg : String)
  /-- A login request to the hardware, `b.client.Open(ctx)`. -/
  | login (ctx : Context)
  /-- The call `b.client.GetPowerState(ctx)`. -/
  | GetPowerState (ctx : Context)
  /-- The call `b.client.SetPowerState(ctx, state)`. -/
  | SetPowerState (ctx : Context) (state : String)
deriving DecidableEq, Repr

/-- How a call of a Go function ends: it returns, or it panics. -/
inductive Outcome (α : Type) where
  | returned (value : α)
  | panicked (reason : String)
deriving DecidableEq, Repr

/-- The run-time panic of reading a field through a nil pointer. -/
def nilDereference : String :=
  "runtime error: invalid memory address or nil pointer dereference"

/-- The logout calls in a list of effects, in order. -/
def logoutCalls : List BmcEffect → List Context
  | [] => []
  | BmcEffect.logout ctx :: rest => ctx :: logoutCalls rest
  | _ :: rest => logoutCalls rest

/-- The method `Close`: how the call ends, the `bmc` afterwards, and the
effects in order.

The statements of the method, in order: the span is started (line 88) and its
end deferred (line 89); the argument `b.client.Auth.Host` of
`span.SetAttributes` is read (line 91), which panics when `b.client` is nil;
then comes the guard `if b.client == nil` (line 93), the logout under
`ctxClose` (lines 97 to 102), and the assignment `b.client = nil` (line 106). -/
def bmc.Close (b : bmc) (hw : Hardware) (traceCtx : Context) :
    Outcome (Option GoError) × bmc × List BmcEffect :=
  let log := [BmcEffect.spanStart traceCtx "bmclib.Close"]
  match b.client with
  | none => (Outcome.panicked nilDereference, b, log ++ [BmcEffect.spanEnd])
  | some client =>
    let log := log ++ [BmcEffect.spanSetAttributes "bmc-ip" client.Auth.Host]
    if b.client.isNone then
      (Outcome.returned none, b, log ++ [BmcEffect.spanEnd])
    else
      let ctxClose := Context.WithTimeout Context.Background logoutTimeout
      let log := log ++ [BmcEffect.logout ctxClose]
      match hw.Close client ctxClose with
      | some err =>
        (Outcome.returned (some (Wrap errBMCLogout err.Error)), b, log ++ [BmcEffect.spanEnd])
      | none =>
        (Outcome.returned none, { b with client := none },
          log ++ [BmcEffect.logDebug "bmc logout successful", BmcEffect.spanEnd])

/-! ### Sessions: `Open`, `PowerStatus`, `SetPowerState` -/

/-- The variable `loginTimeout`. -/
def loginTimeout : Nat := 3 * Minute

/-- The variable `loginAttempts`. -/
def loginAttempts : Nat := 3

/-- The variable `errBMCLogin`. -/
def errBMCLogin : GoError :=
  GoError.sentinel "bmc login error"

/-- The variable `errBMCLoginUnAuthorized`. -/
def errBMCLoginUnAuthorized : GoError :=
  GoError.sentinel "bmc login unauthorized"

/-- The variable `ErrMaxBMCQueryAttempts`. -/
def ErrMaxBMCQueryAttempts : GoError :=
  GoError.sentinel "reached maximum BMC query attempts"

/-- Modelled from the spec: the state of the BMC session that a manager owns,
as it stands between two operations (section 3, "BMC Session": `Closed`, then
`Opening` while `open` runs, then `Open`, then `Closed`). The struct `bmc` has
no field for it; it is read and set by `loginWithRetries`, which is not among
the sources. -/
inductive Session where
  | Closed
  | Open
deriving DecidableEq, Repr

/-- Modelled from the spec: the answer of the BMC to one login attempt
(section 4.3: the login is accepted, or it fails in one of three shapes:
timeout, unauthorized, generic session error). -/
inductive LoginAnswer where
  | accepted
  | timeout
  | unauthorized
  | sessionError
deriving DecidableEq, Repr

/-- The answers of the BMC to the login and power calls made through the
bmclib client. -/
structure Controller where
  /-- The answer to the login attempt number `attempt` (from 1), the call
  `b.client.Open(ctx)`. -/
  Open : BmclibClient → Context → (attempt : Nat) → LoginAnswer
  /-- The method `b.client.GetPowerState(ctx)`. -/
  GetPowerState : BmclibClient → Context → Except GoError String
  /-- The method `b.client.SetPowerState(ctx, state)`. -/
  SetPowerState : BmclibClient → Context → String → Bool × Option GoError

/-- The login requests in a list of effects, in order. -/
def loginCalls : List BmcEffect → List Context
  | [] => []
  | BmcEffect.login ctx :: rest => ctx :: loginCalls rest
  | _ :: rest => loginCalls rest

/-- Modelled from the spec: the login attempts of `loginWithRetries`, which is
not among the sources. Section 4.3: the attempts are sequential, each bounded
by the login timeout; an accepted login opens the session; `unauthorized` is
not retried and aborts at once; a timeout or a generic session error is
retried; when the attempts are used up the call fails
("MaxLoginAttemptsReached", here the variable `ErrMaxBMCQueryAttempts`;
"BMCLoginUnauthorized" is the variable `errBMCLoginUnAuthorized`). The
results: the error, the session afterwards, and the effects. -/
def loginAttemptsFrom (client : BmclibClient) (hw : Controller) (ctx : Context) :
    (attempt : Nat) → (remaining : Nat) → Option GoError × Session × List BmcEffect
  | _, 0 => (some ErrMaxBMCQueryAttempts, Session.Closed, [])
  | attempt, remaining + 1 =>
    let attemptCtx := Context.WithTimeout ctx loginTimeout
    match hw.Open client attemptCtx attempt with
    | LoginAnswer.accepted => (none, Session.Open, [BmcEffect.login attemptCtx])
    | LoginAnswer.unauthorized =>
      (some errBMCLoginUnAuthorized, Session.Closed, [BmcEffect.login attemptCtx])
    | _ =>
      let r := loginAttemptsFrom client hw ctx (attempt + 1) remaining
      (r.1, r.2.1, BmcEffect.login attemptCtx :: r.2.2)

/-- Modelled from the spec: the method `loginWithRetries`, which `Open` calls
and which is not among the sources. Sections 4.3 and 8: opening a session that
is already open is a no-op and issues no login request; otherwise up to
`tries` login attempts are made. -/
def bmc.loginWithRetries (client : BmclibClient) (session : Session) (hw : Controller)
    (ctx : Context) (tries : Nat) : Option GoError × Session × List BmcEffect :=
  match session with
  | Session.Open => (none, Session.Open, [])
  | Session.Closed => loginAttemptsFrom client hw ctx 1 tries

/-- The method `Open`: how the call ends, the `bmc` and the session
afterwards, and the effects in order.

The statements of the method, in order: the span is started (line 70) and its
end deferred (line 71); the argument `b.client.Auth.Host` of
`span.SetAttributes` is read (line 73), which panics when `b.client` is nil;
then comes the guard `if b.client == nil` (line 75) and the call of
`loginWithRetries` with `loginAttempts` (line 80). -/
def bmc.Open (b : bmc) (session : Session) (hw : Controller) (ctx : Context) :
    Outcome (Option GoError) × bmc × Session × List BmcEffect :=
  let log := [BmcEffect.spanStart ctx "bmclib.Open"]
  match b.client with
  | none => (Outcome.panicked nilDereference, b, session, log ++ [BmcEffect.spanEnd])
  | some client =>
    let log := log ++ [BmcEffect.spanSetAttributes "bmc-ip" client.Auth.Host]
    if b.client.isNone then
      (Outcome.returned (some (Wrap errBMCLogin "bmclibv2 client not initialized")), b, session,
        log ++ [BmcEffect.spanEnd])
    else
      -- login to the bmc with retries
      let r := bmc.loginWithRetries client session hw ctx loginAttempts
      (Outcome.returned r.1, b, r.2.1, log ++ r.2.2 ++ [BmcEffect.spanEnd])

/-- The method `PowerStatus`: how the call ends (the returned status and
error, or a panic), the `bmc` and the session afterwards, and the effects in
order. -/
def bmc.PowerStatus (b : bmc) (session : Session) (hw : Controller) (ctx : Context) :
    Outcome (String × Option GoError) × bmc × Session × List BmcEffect :=
  let log := [BmcEffect.spanStart ctx "bmclib.PowerStatus"]
  match b.client with
  | none => (Outcome.panicked nilDereference, b, session, log ++ [BmcEffect.spanEnd])
  | some client =>
    let log := log ++ [BmcEffect.spanSetAttributes "bmc-ip" client.Auth.Host]
    match bmc.Open b session hw ctx with
    | (Outcome.panicked reason, b, session, opened) =>
      (Outcome.panicked reason, b, session, log ++ opened ++ [BmcEffect.spanEnd])
    | (Outcome.returned (some err), b, session, opened) =>
      (Outcome.returned ("", some err), b, session, log ++ opened ++ [BmcEffect.spanEnd])
    | (Outcome.returned none, b, session, opened) =>
      match b.client with
      | none =>
        (Outcome.panicked nilDereference, b, session, log ++ opened ++ [BmcEffect.spanEnd])
      | some client =>
        let log := log ++ opened ++ [BmcEffect.GetPowerState ctx]
        match hw.GetPowerState client ctx with
        | Except.error err =>
          (Outcome.returned ("", some err), b, session, log ++ [BmcEffect.spanEnd])
        | Except.ok status =>
          (Outcome.returned (status, none), b, session, log ++ [BmcEffect.spanEnd])

/-- The method `SetPowerState`: how the call ends (the returned error, or a
panic), the `bmc` and the session afterwards, and the effects in order. -/
def bmc.SetPowerState (b : bmc) (session : Session) (hw : Controller) (ctx : Context)
    (state : String) : Outcome (Option GoError) × bmc × Session × List BmcEffect :=
  let log := [BmcEffect.spanStart ctx "bmclib.SetPowerState"]
  match b.client with
  | none => (Outcome.panicked nilDereference, b, session, log ++ [BmcEffect.spanEnd])
  | some client =>
    let log := log ++ [BmcEffect.spanSetAttributes "bmc-ip" client.Auth.Host]
    match bmc.Open b session hw ctx with
    | (Outcome.panicked reason, b, session, opened) =>
      (Outcome.panicked reason, b, session, log ++ opened ++ [BmcEffect.spanEnd])
    | (Outcome.returned (some err), b, session, opened) =>
      (Outcome.returned (some err), b, session, log ++ opened ++ [BmcEffect.spanEnd])
    | (Outcome.returned none, b, session, opened) =>
      match b.client with
      | none =>
        (Outcome.panicked nilDereference, b, session, log ++ opened ++ [BmcEffect.spanEnd])
      | some client =>
        let log := log ++ opened ++ [BmcEffect.SetPowerState ctx state]
        (Outcome.returned (hw.SetPowerState client ctx state).2, b, session,
          log ++ [BmcEffect.spanEnd])

/-- The calls `Open`, `PowerStatus` and `SetPowerState` made in a row on one
manager, each on the manager and the session that the call before left: the
effects of the three calls, in order. -/
def openPowerStatusSetPowerState (b : bmc) (session : Session) (hw : Controller)
    (ctx₁ ctx₂ ctx₃ : Context) (state : String) : List BmcEffect :=
  let opened := bmc.Open b session hw ctx₁
  let queried := bmc.PowerStatus opened.2.1 opened.2.2.1 hw ctx₂
  let changed := bmc.SetPowerState queried.2.1 queried.2.2.1 hw ctx₃ state
  opened.2.2.2 ++ queried.2.2.2 ++ changed.2.2.2

/-! ## Sample values

A library, an inventory and a BMC for the examples: `sampleLibrary` answers as
the imported packages do on the texts that the examples use. -/

/-- The identifier of the examples. -/
def sampleID : String := "11111111-1111-1111-1111-111111111111"

/-- The bytes of `sampleID`. -/
def sampleUUID : UUID := List.replicate 16 17

/-- The payload `{"address":"10.0.0.5"}`. -/
def payloadAddress : RawMessage := "\x7b\"address\":\"10.0.0.5\"\x7d"

/-- The payload `{"address":"not-an-ip"}`. -/
def payloadNotAnIP : RawMessage := "\x7b\"address\":\"not-an-ip\"\x7d"

/-- The payload `{"address":""}`. -/
def payloadEmptyAddress : RawMessage := "\x7b\"address\":\"\"\x7d"

/-- The payload `{"vendor":"dell","model":"r640","serial":"S1"}`. -/
def payloadVendor : RawMessage :=
  "\x7b\"vendor\":\"dell\",\"model\":\"r640\",\"serial\":\"S1\"\x7d"

/-- The payload `{"serial":"S1"}`. -/
def payloadSerialOnly : RawMessage := "\x7b\"serial\":\"S1\"\x7d"

/-- The address `10.0.0.5` in the sixteen-byte form that `net.ParseIP` returns. -/
def ip10005 : List Nat := [0, 0, 0, 0, 0, 0, 0, 0, 0, 0, 255, 255, 10, 0, 0, 5]

/-- The imported packages on the texts of the examples. -/
def sampleLibrary : Library where
  uuidParse := fun s =>
    if s = sampleID then Except.ok sampleUUID
    else Except.error (GoError.foreign ("invalid UUID length: " ++ toString s.length))
  jsonUnmarshal := fun data =>
    if data = payloadAddress then Except.ok [("address", "10.0.0.5")]
    else if data = payloadNotAnIP then Except.ok [("address", "not-an-ip")]
    else if data = payloadEmptyAddress then Except.ok [("address", "")]
    else if data = payloadVendor then
      Except.ok [("vendor", "dell"), ("model", "r640"), ("serial", "S1")]
    else if data = payloadSerialOnly then Except.ok [("serial", "S1")]
    else Except.error (GoError.foreign "unexpected end of JSON input")
  ParseIP := fun s => if s = "10.0.0.5" then some ip10005 else none
  FormatVendorName := fun name => name
  FormatProductName := fun s => s
  ServerAttributeNSBmcAddress := "sh.hollow.bmc_info"
  ServerAttributeNSVendor := "sh.hollow.alloy.server_vendor_attributes"
  ServerCredentialTypeBMC := "bmc"

/-- An inventory that answers every call with this credential and this server
record. -/
def sampleClient (credential : ServerCredential) (srv : Server) : Client where
  GetCredential := fun _ _ _ => Except.ok credential
  Get := fun _ _ => Except.ok srv

/-- An inventory whose credential query fails. -/
def clientNoCredential : Client where
  GetCredential := fun _ _ _ => Except.error (GoError.foreign "connection refused")
  Get := fun _ _ => Except.error (GoError.foreign "connection refused")

/-- An inventory whose credential query succeeds and whose server query fails. -/
def clientNoServer (credential : ServerCredential) : Client where
  GetCredential := fun _ _ _ => Except.ok credential
  Get := fun _ _ => Except.error (GoError.foreign "connection refused")

/-- The credential of the examples. -/
def sampleCredential : ServerCredential :=
  { Username := "admin", Password := "hunter2" }

/-- The BMC attribute of the examples. -/
def bmcAttr (data : RawMessage) : Attributes :=
  { Namespace := "sh.hollow.bmc_info", Data := data }

/-- The vendor attribute of the examples. -/
def vendorAttr (data : RawMessage) : Attributes :=
  { Namespace := "sh.hollow.alloy.server_vendor_attributes", Data := data }

/-- A context that is live and has no deadline. -/
def liveCtx : Context := Context.Background

/-- A BMC that accepts the logout. -/
def hardwareOk : Hardware where
  Close := fun _ _ => none

/-- A BMC on which the logout fails. -/
def hardwareLogoutFails : Hardware where
  Close := fun _ _ => some (GoError.foreign "connection reset by peer")

/-- A bmclib client for the host `10.0.0.5`. -/
def sampleBmclibClient : BmclibClient :=
  { Auth := { Host := "10.0.0.5", User := "admin", Pass := "hunter2" } }

/-- A context that the caller has already cancelled. -/
def cancelledCtx : Context := { cancelled := true, timeout := none }

/-- A BMC that accepts every login, reports the power state `on` and accepts
every change of the power state. -/
def controllerOk : Controller where
  Open := fun _ _ _ => LoginAnswer.accepted
  GetPowerState := fun _ _ => Except.ok "on"
  SetPowerState := fun _ _ _ => (true, none)

/-- A BMC that answers every login with a generic session error. -/
def controllerSessionError : Controller where
  Open := fun _ _ _ => LoginAnswer.sessionError
  GetPowerState := fun _ _ => Except.error (GoError.foreign "no session")
  SetPowerState := fun _ _ _ => (false, some (GoError.foreign "no session"))

/-! ## Lemmas on errors and attribute lookup -/

theorem Cause_Wrap (err : GoError) (message : String) :
    (Wrap err message).Cause = err.Cause := rfl

theorem Error_Wrap (err : GoError) (message : String) :
    (Wrap err message).Error = message ++ ": " ++ err.Error := rfl

theorem findAttribute_none_of_forall_ne (ns : String) (attributes : List Attributes)
    (h : ∀ a ∈ attributes, a.Namespace ≠ ns) : findAttribute ns attributes = none := by
  induction attributes with
  | nil => rfl
  | cons a rest ih =>
    have ha : a.Namespace ≠ ns := h a (List.mem_cons_self a rest)
    have hrest : ∀ x ∈ rest, x.Namespace ≠ ns := fun x hx => h x (List.mem_cons_of_mem a hx)
    simp [findAttribute, ha, ih hrest]

theorem findAttribute_first (ns : String) (before after : List Attributes) (a : Attributes)
    (hbefore : ∀ x ∈ before, x.Namespace ≠ ns) (ha : a.Namespace = ns) :
    findAttribute ns (before ++ a :: after) = some a := by
  induction before with
  | nil => simp [findAttribute, ha]
  | cons b rest ih =>
    have hb : b.Namespace ≠ ns := hbefore b (List.mem_cons_self b rest)
    have hrest : ∀ x ∈ rest, x.Namespace ≠ ns :=
      fun x hx => hbefore x (List.mem_cons_of_mem b hx)
    simp [findAttribute, hb, ih hrest]

/-- When the payload of the first attribute of the BMC namespace does not
decode, `bmcAddressFromAttributes` returns the decoder's message wrapped in
`ErrBMCAddress`. -/
theorem bmcAddressFromAttributes_undecodable (L : Library) (attributes : List Attributes)
    (bmcAttribute : Attributes) (err : GoError)
    (hfind : findAttribute L.ServerAttributeNSBmcAddress attributes = some bmcAttribute)
    (hdata : L.jsonUnmarshal bmcAttribute.Data = Except.error err) :
    bmcAddressFromAttributes L attributes = (some [], some (Wrap ErrBMCAddress err.Error)) := by
  simp [bmcAddressFromAttributes, hfind, hdata]

/-- When the payload of the first attribute of the BMC namespace decodes and
its `address` is not empty, `bmcAddressFromAttributes` returns the result of
`net.ParseIP` on it, nil or not, with a nil error. -/
theorem bmcAddressFromAttributes_nonempty (L : Library) (attributes : List Attributes)
    (bmcAttribute : Attributes) (data : StringMap)
    (hfind : findAttribute L.ServerAttributeNSBmcAddress attributes = some bmcAttribute)
    (hdata : L.jsonUnmarshal bmcAttribute.Data = Except.ok data)
    (hne : mapIndex data "address" ≠ "") :
    bmcAddressFromAttributes L attributes = (L.ParseIP (mapIndex data "address"), none) := by
  simp [bmcAddressFromAttributes, hfind, hdata, hne]

/-- What `bmcAddressFromAttributes` read when it returns a nil error: the
first attribute of the BMC namespace, a payload that decodes, and a non-empty
`address`; the address returned is whatever `net.ParseIP` makes of it. -/
theorem bmcAddressFromAttributes_nil_error (L : Library) (attributes : List Attributes)
    (address : IP) (h : bmcAddressFromAttributes L attributes = (address, none)) :
    ∃ bmcAttribute data,
      findAttribute L.ServerAttributeNSBmcAddress attributes = some bmcAttribute
      ∧ L.jsonUnmarshal bmcAttribute.Data = Except.ok data
      ∧ mapIndex data "address" ≠ ""
      ∧ address = L.ParseIP (mapIndex data "address") := by
  unfold bmcAddressFromAttributes at h
  cases hfind : findAttribute L.ServerAttributeNSBmcAddress attributes with
  | none => simp [hfind] at h
  | some bmcAttribute =>
    cases hdata : L.jsonUnmarshal bmcAttribute.Data with
    | error err => simp [hfind, hdata] at h
    | ok data =>
      by_cases hempty : mapIndex data "address" = ""
      · simp [hfind, hdata, hempty] at h
      · simp [hfind, hdata, hempty] at h
        exact ⟨bmcAttribute, data, rfl, hdata, hempty, h.symm⟩

/-- The value of `AssetByID` when the identifier parses, both queries succeed
and the BMC address is decoded: the asset carries whatever
`vendorModelFromAttributes` returned, and a warning is logged when that
function returned an error. -/
theorem AssetByID_of_lookups (L : Library) (c : Client) (ctx : Context) (id : String)
    (deviceUUID : UUID) (credential : ServerCredential) (srv : Server) (address : IP)
    (hid : L.uuidParse id = Except.ok deviceUUID)
    (hcred : c.GetCredential ctx deviceUUID L.ServerCredentialTypeBMC = Except.ok credential)
    (hsrv : c.Get ctx deviceUUID = Except.ok srv)
    (haddr : bmcAddressFromAttributes L srv.Attributes = (address, none)) :
    AssetByID L c ctx id =
      ((some { ID := deviceUUID, BmcAddress := address,
               BmcUsername := credential.Username, BmcPassword := credential.Password,
               Vendor := (vendorModelFromAttributes L srv.Attributes).1,
               Model := (vendorModelFromAttributes L srv.Attributes).2.1,
               Serial := (vendorModelFromAttributes L srv.Attributes).2.2.1,
               FacilityCode := srv.FacilityCode }, none),
       [Effect.spanStart "Serverservice.AssetByID",
        Effect.GetCredential deviceUUID L.ServerCredentialTypeBMC, Effect.Get deviceUUID]
        ++ (match (vendorModelFromAttributes L srv.Attributes).2.2.2 with
            | some err => [Effect.logWarn err ErrVendorModelAttributes.Error]
            | none => [])
        ++ [Effect.spanEnd]) := by
  simp only [AssetByID, AssetByID.body, hid, hcred, hsrv, haddr]
  rcases vendorModelFromAttributes L srv.Attributes with ⟨vendor, model, serial, verr⟩
  cases verr <;> simp

/-! ## Attribute decoding and asset resolution -/

/-- C1: when no attribute of the set has the BMC-address namespace,
`bmcAddressFromAttributes` returns the "not found" error, whose cause is
`ErrBMCAddress`; and for every identifier that parses and whose credential and
server queries succeed with such an attribute set, `AssetByID` returns that
error and a nil asset. -/
theorem bmcAddress_namespace_missing (L : Library) (attributes : List Attributes)
    (hmissing : ∀ a ∈ attributes, a.Namespace ≠ L.ServerAttributeNSBmcAddress) :
    bmcAddressFromAttributes L attributes
        = (some [], some (Wrap ErrBMCAddress ("not found: " ++ L.ServerAttributeNSBmcAddress)))
    ∧ (Wrap ErrBMCAddress ("not found: " ++ L.ServerAttributeNSBmcAddress)).Cause = ErrBMCAddress
    ∧ ∀ (c : Client) (ctx : Context) (id : String) (deviceUUID : UUID)
        (credential : ServerCredential) (srv : Server),
        L.uuidParse id = Except.ok deviceUUID →
        c.GetCredential ctx deviceUUID L.ServerCredentialTypeBMC = Except.ok credential →
        c.Get ctx deviceUUID = Except.ok srv →
        srv.Attributes = attributes →
        (AssetByID L c ctx id).1
          = (none, some (Wrap ErrBMCAddress ("not found: " ++ L.ServerAttributeNSBmcAddress))) := by
  have hfind := findAttribute_none_of_forall_ne L.ServerAttributeNSBmcAddress attributes hmissing
  have hbmc : bmcAddressFromAttributes L attributes
      = (some [], some (Wrap ErrBMCAddress ("not found: " ++ L.ServerAttributeNSBmcAddress))) := by
    simp [bmcAddressFromAttributes, hfind]
  refine ⟨hbmc, rfl, ?_⟩
  intro c ctx id deviceUUID credential srv hid hcred hsrv hattrs
  subst hattrs
  simp [AssetByID, AssetByID.body, hid, hcred, hsrv, hbmc]

/-- Witness of C1: an attribute set with the vendor attribute only. -/
theorem bmcAddress_namespace_missing_witness :
    (∀ a ∈ [vendorAttr payloadVendor], a.Namespace ≠ sampleLibrary.ServerAttributeNSBmcAddress)
    ∧ bmcAddressFromAttributes sampleLibrary [vendorAttr payloadVendor]
        = (some [], some (Wrap ErrBMCAddress "not found: sh.hollow.bmc_info"))
    ∧ (AssetByID sampleLibrary
        (sampleClient sampleCredential
          { FacilityCode := "dc1", Attributes := [vendorAttr payloadVendor] })
        liveCtx sampleID).1
        = (none, some (Wrap ErrBMCAddress "not found: sh.hollow.bmc_info")) :=
  ⟨by decide,
   (bmcAddress_namespace_missing sampleLibrary [vendorAttr payloadVendor] (by decide)).1,
   (bmcAddress_namespace_missing sampleLibrary [vendorAttr payloadVendor] (by decide)).2.2
     (sampleClient sampleCredential
       { FacilityCode := "dc1", Attributes := [vendorAttr payloadVendor] })
     liveCtx sampleID sampleUUID sampleCredential
     { FacilityCode := "dc1", Attributes := [vendorAttr payloadVendor] } rfl rfl rfl rfl⟩

/-- C2: when the payload of the first attribute with the BMC-address namespace
decodes to a map in which `address` is missing or is the empty string,
`bmcAddressFromAttributes` returns the "value undefined" error, whose cause is
`ErrBMCAddress`; the error is not nil. -/
theorem bmcAddress_value_undefined (L : Library) (before after : List Attributes)
    (bmcAttribute : Attributes) (data : StringMap)
    (hbefore : ∀ a ∈ before, a.Namespace ≠ L.ServerAttributeNSBmcAddress)
    (hns : bmcAttribute.Namespace = L.ServerAttributeNSBmcAddress)
    (hdata : L.jsonUnmarshal bmcAttribute.Data = Except.ok data)
    (haddress : data.lookup "address" = none ∨ data.lookup "address" = some "") :
    bmcAddressFromAttributes L (before ++ bmcAttribute :: after)
        = (some [],
           some (Wrap ErrBMCAddress ("value undefined: " ++ L.ServerAttributeNSBmcAddress)))
    ∧ (Wrap ErrBMCAddress ("value undefined: " ++ L.ServerAttributeNSBmcAddress)).Cause
        = ErrBMCAddress
    ∧ (bmcAddressFromAttributes L (before ++ bmcAttribute :: after)).2 ≠ none := by
  have hfind := findAttribute_first L.ServerAttributeNSBmcAddress before after bmcAttribute
    hbefore hns
  have hempty : mapIndex data "address" = "" := by
    rcases haddress with h | h <;> simp [mapIndex, h]
  have hbmc : bmcAddressFromAttributes L (before ++ bmcAttribute :: after)
      = (some [],
         some (Wrap ErrBMCAddress ("value undefined: " ++ L.ServerAttributeNSBmcAddress))) := by
    simp [bmcAddressFromAttributes, hfind, hdata, hempty]
  refine ⟨hbmc, rfl, ?_⟩
  rw [hbmc]
  simp

/-- Witness of C2: the payload `{"address":""}`. -/
theorem bmcAddress_value_undefined_witness :
    bmcAddressFromAttributes sampleLibrary
        ([vendorAttr payloadVendor] ++ bmcAttr payloadEmptyAddress :: [bmcAttr payloadAddress])
        = (some [], some (Wrap ErrBMCAddress "value undefined: sh.hollow.bmc_info"))
    ∧ (Wrap ErrBMCAddress "value undefined: sh.hollow.bmc_info").Cause = ErrBMCAddress
    ∧ (bmcAddressFromAttributes sampleLibrary
        ([vendorAttr payloadVendor] ++ bmcAttr payloadEmptyAddress :: [bmcAttr payloadAddress])).2
        ≠ none :=
  bmcAddress_value_undefined sampleLibrary [vendorAttr payloadVendor] [bmcAttr payloadAddress]
    (bmcAttr payloadEmptyAddress) [("address", "")] (by decide) rfl rfl (Or.inr rfl)

/-- C3: on the attribute set whose BMC-address payload is
`{"address":"not-an-ip"}`, a non-empty address that `net.ParseIP` rejects,
`bmcAddressFromAttributes` returns a nil address together with a nil error:
the result of `net.ParseIP` is returned unchecked. -/
theorem bmcAddress_unparsable_returns_nil_nil :
    sampleLibrary.jsonUnmarshal (bmcAttr payloadNotAnIP).Data
        = Except.ok [("address", "not-an-ip")]
    ∧ sampleLibrary.ParseIP "not-an-ip" = none
    ∧ bmcAddressFromAttributes sampleLibrary [bmcAttr payloadNotAnIP] = (none, none) :=
  ⟨rfl, rfl, by decide⟩

/-- C4, as stated, fails: with a credential whose username and password are
empty, `AssetByID` returns a nil error and an asset whose `BmcUsername` and
`BmcPassword` are empty. -/
theorem AssetByID_empty_credential_counterexample :
    (AssetByID sampleLibrary
        (sampleClient { Username := "", Password := "" }
          { FacilityCode := "dc1",
            Attributes := [bmcAttr payloadAddress, vendorAttr payloadVendor] })
        liveCtx sampleID).1
      = (some { ID := sampleUUID, BmcAddress := some ip10005, BmcUsername := "",
                BmcPassword := "", Vendor := "dell", Model := "r640", Serial := "S1",
                FacilityCode := "dc1" }, none) := by
  decide

/-- C4, amended: when `AssetByID` returns a nil error, the asset is not nil;
the identifier parsed and both queries succeeded; `ID` is the parsed
identifier, `BmcUsername` and `BmcPassword` are the username and password of
the credential as the inventory returned them, `FacilityCode` is the one of
the server record; the `address` of the BMC attribute was not empty, and
`BmcAddress` is its parsed form whenever it parses. -/
theorem AssetByID_nil_error_populated (L : Library) (c : Client) (ctx : Context) (id : String)
    (result : Option Asset) (h : (AssetByID L c ctx id).1 = (result, none)) :
    ∃ (asset : Asset) (deviceUUID : UUID) (credential : ServerCredential) (srv : Server)
      (bmcAttribute : Attributes) (data : StringMap),
      result = some asset
      ∧ L.uuidParse id = Except.ok deviceUUID
      ∧ c.GetCredential ctx deviceUUID L.ServerCredentialTypeBMC = Except.ok credential
      ∧ c.Get ctx deviceUUID = Except.ok srv
      ∧ findAttribute L.ServerAttributeNSBmcAddress srv.Attributes = some bmcAttribute
      ∧ L.jsonUnmarshal bmcAttribute.Data = Except.ok data
      ∧ mapIndex data "address" ≠ ""
      ∧ asset.ID = deviceUUID
      ∧ asset.BmcUsername = credential.Username
      ∧ asset.BmcPassword = credential.Password
      ∧ asset.FacilityCode = srv.FacilityCode
      ∧ ∀ ip : List Nat, L.ParseIP (mapIndex data "address") = some ip →
          asset.BmcAddress = some ip := by
  cases hid : L.uuidParse id with
  | error err => simp [AssetByID, AssetByID.body, hid] at h
  | ok deviceUUID =>
    cases hcred : c.GetCredential ctx deviceUUID L.ServerCredentialTypeBMC with
    | error err => simp [AssetByID, AssetByID.body, hid, hcred] at h
    | ok credential =>
      cases hsrv : c.Get ctx deviceUUID with
      | error err => simp [AssetByID, AssetByID.body, hid, hcred, hsrv] at h
      | ok srv =>
        rcases haddr : bmcAddressFromAttributes L srv.Attributes with ⟨address, aerr⟩
        cases aerr with
        | some err => simp [AssetByID, AssetByID.body, hid, hcred, hsrv, haddr] at h
        | none =>
          obtain ⟨bmcAttribute, data, hfind, hdata, hne, hparse⟩ :=
            bmcAddressFromAttributes_nil_error L srv.Attributes address haddr
          rw [AssetByID_of_lookups L c ctx id deviceUUID credential srv address
            hid hcred hsrv haddr] at h
          simp only [Prod.mk.injEq, and_true] at h
          refine ⟨_, deviceUUID, credential, srv, bmcAttribute, data, h.symm, rfl, hcred, hsrv,
            hfind, hdata, hne, rfl, rfl, rfl, rfl, ?_⟩
          intro ip hip
          show address = some ip
          rw [hparse, hip]

/-- Witness of C4, amended: the identifier, credential and attribute set of the
examples. -/
theorem AssetByID_nil_error_populated_witness :
    (AssetByID sampleLibrary
        (sampleClient sampleCredential
          { FacilityCode := "dc1",
            Attributes := [bmcAttr payloadAddress, vendorAttr payloadVendor] })
        liveCtx sampleID).1
      = (some { ID := sampleUUID, BmcAddress := some ip10005, BmcUsername := "admin",
                BmcPassword := "hunter2", Vendor := "dell", Model := "r640", Serial := "S1",
                FacilityCode := "dc1" }, none)
    ∧ ∃ (asset : Asset) (deviceUUID : UUID) (credential : ServerCredential) (srv : Server)
      (bmcAttribute : Attributes) (data : StringMap),
      some { ID := sampleUUID, BmcAddress := some ip10005, BmcUsername := "admin",
             BmcPassword := "hunter2", Vendor := "dell", Model := "r640", Serial := "S1",
             FacilityCode := "dc1" } = some asset
      ∧ sampleLibrary.uuidParse sampleID = Except.ok deviceUUID
      ∧ (sampleClient sampleCredential
          { FacilityCode := "dc1",
            Attributes := [bmcAttr payloadAddress, vendorAttr payloadVendor] }).GetCredential
          liveCtx deviceUUID sampleLibrary.ServerCredentialTypeBMC = Except.ok credential
      ∧ (sampleClient sampleCredential
          { FacilityCode := "dc1",
            Attributes := [bmcAttr payloadAddress, vendorAttr payloadVendor] }).Get
          liveCtx deviceUUID = Except.ok srv
      ∧ findAttribute sampleLibrary.ServerAttributeNSBmcAddress srv.Attributes
          = some bmcAttribute
      ∧ sampleLibrary.jsonUnmarshal bmcAttribute.Data = Except.ok data
      ∧ mapIndex data "address" ≠ ""
      ∧ asset.ID = deviceUUID
      ∧ asset.BmcUsername = credential.Username
      ∧ asset.BmcPassword = credential.Password
      ∧ asset.FacilityCode = srv.FacilityCode
      ∧ ∀ ip : List Nat, sampleLibrary.ParseIP (mapIndex data "address") = some ip →
          asset.BmcAddress = some ip :=
  ⟨by decide,
   AssetByID_nil_error_populated sampleLibrary
    (sampleClient sampleCredential
      { FacilityCode := "dc1",
        Attributes := [bmcAttr payloadAddress, vendorAttr payloadVendor] })
    liveCtx sampleID
    (some { ID := sampleUUID, BmcAddress := some ip10005, BmcUsername := "admin",
            BmcPassword := "hunter2", Vendor := "dell", Model := "r640", Serial := "S1",
            FacilityCode := "dc1" })
    (by decide)⟩

/-- C5: when the identifier parses, both queries succeed, the BMC address of
the attribute set is decoded (`bmcAddressFromAttributes` returns a nil error)
and no attribute has the vendor namespace, `AssetByID` returns a nil error and
an asset whose `Vendor`, `Model` and `Serial` are empty; the failed vendor
lookup is logged as a warning. -/
theorem AssetByID_vendor_namespace_missing (L : Library) (c : Client) (ctx : Context)
    (id : String) (deviceUUID : UUID) (credential : ServerCredential) (srv : Server)
    (address : IP)
    (hid : L.uuidParse id = Except.ok deviceUUID)
    (hcred : c.GetCredential ctx deviceUUID L.ServerCredentialTypeBMC = Except.ok credential)
    (hsrv : c.Get ctx deviceUUID = Except.ok srv)
    (haddr : bmcAddressFromAttributes L srv.Attributes = (address, none))
    (hmissing : ∀ a ∈ srv.Attributes, a.Namespace ≠ L.ServerAttributeNSVendor) :
    AssetByID L c ctx id =
      ((some { ID := deviceUUID, BmcAddress := address,
               BmcUsername := credential.Username, BmcPassword := credential.Password,
               Vendor := "", Model := "", Serial := "",
               FacilityCode := srv.FacilityCode }, none),
       [Effect.spanStart "Serverservice.AssetByID",
        Effect.GetCredential deviceUUID L.ServerCredentialTypeBMC, Effect.Get deviceUUID,
        Effect.logWarn ErrVendorModelAttributes ErrVendorModelAttributes.Error,
        Effect.spanEnd]) := by
  have hfind := findAttribute_none_of_forall_ne L.ServerAttributeNSVendor srv.Attributes hmissing
  have hvendor : vendorModelFromAttributes L srv.Attributes
      = ("", "", "", some ErrVendorModelAttributes) := by
    simp [vendorModelFromAttributes, hfind]
  rw [AssetByID_of_lookups L c ctx id deviceUUID credential srv address hid hcred hsrv haddr,
    hvendor]
  rfl

/-- Witness of C5: an attribute set with the BMC attribute only. -/
theorem AssetByID_vendor_namespace_missing_witness :
    AssetByID sampleLibrary
        (sampleClient sampleCredential
          { FacilityCode := "dc1", Attributes := [bmcAttr payloadAddress] })
        liveCtx sampleID =
      ((some { ID := sampleUUID, BmcAddress := some ip10005,
               BmcUsername := "admin", BmcPassword := "hunter2",
               Vendor := "", Model := "", Serial := "", FacilityCode := "dc1" }, none),
       [Effect.spanStart "Serverservice.AssetByID",
        Effect.GetCredential sampleUUID "bmc", Effect.Get sampleUUID,
        Effect.logWarn ErrVendorModelAttributes ErrVendorModelAttributes.Error,
        Effect.spanEnd]) :=
  AssetByID_vendor_namespace_missing sampleLibrary
    (sampleClient sampleCredential
      { FacilityCode := "dc1", Attributes := [bmcAttr payloadAddress] })
    liveCtx sampleID sampleUUID sampleCredential
    { FacilityCode := "dc1", Attributes := [bmcAttr payloadAddress] } (some ip10005)
    rfl rfl rfl (by decide) (by decide)

/-- C6, as stated, fails: the vendor payload `{"serial":"S1"}` has no vendor,
so `vendorModelFromAttributes` returns the error "device vendor unknown"
together with the serial `S1`, and the asset that `AssetByID` returns has
`Serial = "S1"`. -/
theorem AssetByID_vendor_error_counterexample :
    vendorModelFromAttributes sampleLibrary
        [bmcAttr payloadAddress, vendorAttr payloadSerialOnly]
      = ("", "", "S1", some (Wrap ErrVendorModelAttributes "device vendor unknown"))
    ∧ (AssetByID sampleLibrary
        (sampleClient sampleCredential
          { FacilityCode := "dc1",
            Attributes := [bmcAttr payloadAddress, vendorAttr payloadSerialOnly] })
        liveCtx sampleID).1
      = (some { ID := sampleUUID, BmcAddress := some ip10005, BmcUsername := "admin",
                BmcPassword := "hunter2", Vendor := "", Model := "", Serial := "S1",
                FacilityCode := "dc1" }, none)
    ∧ ¬ (∀ asset : Asset,
          (AssetByID sampleLibrary
            (sampleClient sampleCredential
              { FacilityCode := "dc1",
                Attributes := [bmcAttr payloadAddress, vendorAttr payloadSerialOnly] })
            liveCtx sampleID).1 = (some asset, none) →
          asset.Vendor = "" ∧ asset.Model = "" ∧ asset.Serial = "") := by
  refine ⟨by decide, by decide, ?_⟩
  intro hall
  have h := hall
    { ID := sampleUUID, BmcAddress := some ip10005, BmcUsername := "admin",
      BmcPassword := "hunter2", Vendor := "", Model := "", Serial := "S1",
      FacilityCode := "dc1" } (by decide)
  exact absurd h.2.2 (by decide)

/-- C6, amended: whenever `vendorModelFromAttributes` returns an error and the
other lookups succeed, `AssetByID` returns a nil error and an asset, logs the
error as a warning, and the asset carries in `Vendor`, `Model` and `Serial`
the three values that `vendorModelFromAttributes` returned with its error:
all empty when the namespace is missing or the payload does not decode;
otherwise the normalized vendor, the normalized model and the serial of the
payload, of which the vendor or the model is empty. -/
theorem AssetByID_vendor_error_nonfatal (L : Library) (c : Client) (ctx : Context)
    (id : String) (deviceUUID : UUID) (credential : ServerCredential) (srv : Server)
    (address : IP) (vendor model serial : String) (verr : GoError)
    (hid : L.uuidParse id = Except.ok deviceUUID)
    (hcred : c.GetCredential ctx deviceUUID L.ServerCredentialTypeBMC = Except.ok credential)
    (hsrv : c.Get ctx deviceUUID = Except.ok srv)
    (haddr : bmcAddressFromAttributes L srv.Attributes = (address, none))
    (hvendor : vendorModelFromAttributes L srv.Attributes = (vendor, model, serial, some verr)) :
    AssetByID L c ctx id =
      ((some { ID := deviceUUID, BmcAddress := address,
               BmcUsername := credential.Username, BmcPassword := credential.Password,
               Vendor := vendor, Model := model, Serial := serial,
               FacilityCode := srv.FacilityCode }, none),
       [Effect.spanStart "Serverservice.AssetByID",
        Effect.GetCredential deviceUUID L.ServerCredentialTypeBMC, Effect.Get deviceUUID,
        Effect.logWarn verr ErrVendorModelAttributes.Error,
        Effect.spanEnd])
    ∧ (findAttribute L.ServerAttributeNSVendor srv.Attributes = none →
        vendor = "" ∧ model = "" ∧ serial = "")
    ∧ (∀ (vendorAttribute : Attributes) (err : GoError),
        findAttribute L.ServerAttributeNSVendor srv.Attributes = some vendorAttribute →
        L.jsonUnmarshal vendorAttribute.Data = Except.error err →
        vendor = "" ∧ model = "" ∧ serial = "")
    ∧ (∀ (vendorAttribute : Attributes) (vendorAttrs : StringMap),
        findAttribute L.ServerAttributeNSVendor srv.Attributes = some vendorAttribute →
        L.jsonUnmarshal vendorAttribute.Data = Except.ok vendorAttrs →
        vendor = L.FormatVendorName (mapIndex vendorAttrs "vendor")
        ∧ model = L.FormatProductName (mapIndex vendorAttrs "model")
        ∧ serial = mapIndex vendorAttrs "serial"
        ∧ (vendor = "" ∨ model = "")) := by
  refine ⟨?_, ?_, ?_, ?_⟩
  · rw [AssetByID_of_lookups L c ctx id deviceUUID credential srv address hid hcred hsrv haddr,
      hvendor]
    rfl
  · intro hfind
    simp [vendorModelFromAttributes, hfind] at hvendor
    exact ⟨hvendor.1.symm, hvendor.2.1.symm, hvendor.2.2.1.symm⟩
  · intro vendorAttribute err hfind hdata
    simp [vendorModelFromAttributes, hfind, hdata] at hvendor
    exact ⟨hvendor.1.symm, hvendor.2.1.symm, hvendor.2.2.1.symm⟩
  · intro vendorAttribute vendorAttrs hfind hdata
    simp only [vendorModelFromAttributes, hfind, hdata] at hvendor
    by_cases hv : L.FormatVendorName (mapIndex vendorAttrs "vendor") = ""
    · simp only [hv, if_true, Prod.mk.injEq] at hvendor
      refine ⟨?_, hvendor.2.1.symm, hvendor.2.2.1.symm, Or.inl hvendor.1.symm⟩
      rw [hv]
      exact hvendor.1.symm
    · by_cases hm : L.FormatProductName (mapIndex vendorAttrs "model") = ""
      · simp only [hv, hm, if_true, if_false, Prod.mk.injEq] at hvendor
        refine ⟨hvendor.1.symm, ?_, hvendor.2.2.1.symm, Or.inr hvendor.2.1.symm⟩
        rw [hm]
        exact hvendor.2.1.symm
      · simp [hv, hm] at hvendor

/-- Witness of C6, amended: the vendor payload `{"serial":"S1"}`. -/
theorem AssetByID_vendor_error_nonfatal_witness :
    AssetByID sampleLibrary
        (sampleClient sampleCredential
          { FacilityCode := "dc1",
            Attributes := [bmcAttr payloadAddress, vendorAttr payloadSerialOnly] })
        liveCtx sampleID =
      ((some { ID := sampleUUID, BmcAddress := some ip10005,
               BmcUsername := "admin", BmcPassword := "hunter2",
               Vendor := "", Model := "", Serial := "S1", FacilityCode := "dc1" }, none),
       [Effect.spanStart "Serverservice.AssetByID",
        Effect.GetCredential sampleUUID "bmc", Effect.Get sampleUUID,
        Effect.logWarn (Wrap ErrVendorModelAttributes "device vendor unknown")
          ErrVendorModelAttributes.Error,
        Effect.spanEnd]) :=
  (AssetByID_vendor_error_nonfatal sampleLibrary
    (sampleClient sampleCredential
      { FacilityCode := "dc1",
        Attributes := [bmcAttr payloadAddress, vendorAttr payloadSerialOnly] })
    liveCtx sampleID sampleUUID sampleCredential
    { FacilityCode := "dc1",
      Attributes := [bmcAttr payloadAddress, vendorAttr payloadSerialOnly] }
    (some ip10005) "" "" "S1" (Wrap ErrVendorModelAttributes "device vendor unknown")
    rfl rfl rfl (by decide) (by decide)).1

/-- C7: when the identifier does not parse as a UUID, `AssetByID` returns a
nil asset and an error whose cause is `ErrDeviceID`; besides the tracing span
it has no effect: no `GetCredential`, no `Get`, and no increment of the
query-error counter. -/
theorem AssetByID_invalid_id (L : Library) (c : Client) (ctx : Context) (id : String)
    (err : GoError) (hid : L.uuidParse id = Except.error err) :
    AssetByID L c ctx id =
      ((none, some (Wrap ErrDeviceID (err.Error ++ id))),
       [Effect.spanStart "Serverservice.AssetByID", Effect.spanEnd])
    ∧ (Wrap ErrDeviceID (err.Error ++ id)).Cause = ErrDeviceID
    ∧ remoteCalls (AssetByID L c ctx id).2 = []
    ∧ metricIncs (AssetByID L c ctx id).2 = [] := by
  have h : AssetByID L c ctx id =
      ((none, some (Wrap ErrDeviceID (err.Error ++ id))),
       [Effect.spanStart "Serverservice.AssetByID", Effect.spanEnd]) := by
    simp [AssetByID, AssetByID.body, hid]
  refine ⟨h, rfl, ?_, ?_⟩
  · rw [h]
    rfl
  · rw [h]
    rfl

/-- Witness of C7: the identifier `nope`. -/
theorem AssetByID_invalid_id_witness :
    AssetByID sampleLibrary clientNoCredential liveCtx "nope" =
      ((none, some (Wrap ErrDeviceID "invalid UUID length: 4nope")),
       [Effect.spanStart "Serverservice.AssetByID", Effect.spanEnd])
    ∧ (Wrap ErrDeviceID "invalid UUID length: 4nope").Cause = ErrDeviceID
    ∧ remoteCalls (AssetByID sampleLibrary clientNoCredential liveCtx "nope").2 = []
    ∧ metricIncs (AssetByID sampleLibrary clientNoCredential liveCtx "nope").2 = [] :=
  AssetByID_invalid_id sampleLibrary clientNoCredential liveCtx "nope"
    (GoError.foreign "invalid UUID length: 4") rfl

/-- C8: for an identifier that parses, when the credential query fails, or it
succeeds and the server query fails, `AssetByID` returns a nil asset and an
error whose cause is `ErrServerserviceQuery` and whose message contains the
message of the underlying error; the query-error counter is incremented
exactly once, with the labels `serverservice` and `GetCredential`
(respectively `GetServer`). -/
theorem AssetByID_query_failed (L : Library) (c : Client) (ctx : Context) (id : String)
    (deviceUUID : UUID) (hid : L.uuidParse id = Except.ok deviceUUID) :
    (∀ err : GoError,
      c.GetCredential ctx deviceUUID L.ServerCredentialTypeBMC = Except.error err →
      (AssetByID L c ctx id).1
        = (none, some (Wrap ErrServerserviceQuery ("GetCredential: " ++ err.Error)))
      ∧ (Wrap ErrServerserviceQuery ("GetCredential: " ++ err.Error)).Cause
        = ErrServerserviceQuery
      ∧ (Wrap ErrServerserviceQuery ("GetCredential: " ++ err.Error)).Error
        = "GetCredential: " ++ err.Error ++ ": serverservice query returned error"
      ∧ metricIncs (AssetByID L c ctx id).2 = [("serverservice", "GetCredential")]
      ∧ remoteCalls (AssetByID L c ctx id).2
        = [Effect.GetCredential deviceUUID L.ServerCredentialTypeBMC])
    ∧ (∀ (credential : ServerCredential) (err : GoError),
      c.GetCredential ctx deviceUUID L.ServerCredentialTypeBMC = Except.ok credential →
      c.Get ctx deviceUUID = Except.error err →
      (AssetByID L c ctx id).1
        = (none, some (Wrap ErrServerserviceQuery ("GetServer: " ++ err.Error)))
      ∧ (Wrap ErrServerserviceQuery ("GetServer: " ++ err.Error)).Cause
        = ErrServerserviceQuery
      ∧ (Wrap ErrServerserviceQuery ("GetServer: " ++ err.Error)).Error
        = "GetServer: " ++ err.Error ++ ": serverservice query returned error"
      ∧ metricIncs (AssetByID L c ctx id).2 = [("serverservice", "GetServer")]
      ∧ remoteCalls (AssetByID L c ctx id).2
        = [Effect.GetCredential deviceUUID L.ServerCredentialTypeBMC,
           Effect.Get deviceUUID]) := by
  constructor
  · intro err hcred
    have h : AssetByID L c ctx id =
        ((none, some (Wrap ErrServerserviceQuery ("GetCredential: " ++ err.Error))),
         [Effect.spanStart "Serverservice.AssetByID",
          Effect.GetCredential deviceUUID L.ServerCredentialTypeBMC,
          Effect.metricInc "serverservice" "GetCredential", Effect.spanEnd]) := by
      simp [AssetByID, AssetByID.body, hid, hcred, registerMetric]
    refine ⟨by rw [h], rfl, ?_, ?_, ?_⟩
    · rw [Error_Wrap, String.append_assoc]
      rfl
    · rw [h]
      rfl
    · rw [h]
      rfl
  · intro credential err hcred hsrv
    have h : AssetByID L c ctx id =
        ((none, some (Wrap ErrServerserviceQuery ("GetServer: " ++ err.Error))),
         [Effect.spanStart "Serverservice.AssetByID",
          Effect.GetCredential deviceUUID L.ServerCredentialTypeBMC,
          Effect.Get deviceUUID,
          Effect.metricInc "serverservice" "GetServer", Effect.spanEnd]) := by
      simp [AssetByID, AssetByID.body, hid, hcred, hsrv, registerMetric]
    refine ⟨by rw [h], rfl, ?_, ?_, ?_⟩
    · rw [Error_Wrap, String.append_assoc]
      rfl
    · rw [h]
      rfl
    · rw [h]
      rfl

/-- Witness of C8: an inventory that refuses the credential query, and one
that answers it and refuses the server query. -/
theorem AssetByID_query_failed_witness :
    ((AssetByID sampleLibrary clientNoCredential liveCtx sampleID).1
        = (none, some (Wrap ErrServerserviceQuery "GetCredential: connection refused"))
      ∧ metricIncs (AssetByID sampleLibrary clientNoCredential liveCtx sampleID).2
        = [("serverservice", "GetCredential")])
    ∧ ((AssetByID sampleLibrary (clientNoServer sampleCredential) liveCtx sampleID).1
        = (none, some (Wrap ErrServerserviceQuery "GetServer: connection refused"))
      ∧ metricIncs (AssetByID sampleLibrary (clientNoServer sampleCredential) liveCtx sampleID).2
        = [("serverservice", "GetServer")]) :=
  ⟨⟨((AssetByID_query_failed sampleLibrary clientNoCredential liveCtx sampleID sampleUUID rfl).1
      (GoError.foreign "connection refused") rfl).1,
    ((AssetByID_query_failed sampleLibrary clientNoCredential liveCtx sampleID sampleUUID rfl).1
      (GoError.foreign "connection refused") rfl).2.2.2.1⟩,
   ⟨((AssetByID_query_failed sampleLibrary (clientNoServer sampleCredential) liveCtx sampleID
      sampleUUID rfl).2 sampleCredential (GoError.foreign "connection refused") rfl rfl).1,
    ((AssetByID_query_failed sampleLibrary (clientNoServer sampleCredential) liveCtx sampleID
      sampleUUID rfl).2 sampleCredential (GoError.foreign "connection refused") rfl
      rfl).2.2.2.1⟩⟩

/-! ## BMC session: `Close` -/

/-- C9: `Close` on a manager whose `client` is nil does not return: reading
`b.client.Auth.Host` for the span attribute panics before the guard
`if b.client == nil` is reached, whatever the hardware and the context; no
logout is issued. In particular a second `Close` after a successful one
panics. -/
theorem Close_nil_client_panics (hw : Hardware) (traceCtx : Context) :
    bmc.Close { client := none } hw traceCtx
      = (Outcome.panicked nilDereference, { client := none },
         [BmcEffect.spanStart traceCtx "bmclib.Close", BmcEffect.spanEnd])
    ∧ logoutCalls (bmc.Close { client := none } hw traceCtx).2.2 = []
    ∧ (bmc.Close { client := some sampleBmclibClient } hardwareOk liveCtx).1
      = Outcome.returned none
    ∧ (bmc.Close (bmc.Close { client := some sampleBmclibClient } hardwareOk liveCtx).2.1
        hardwareOk liveCtx).1
      = Outcome.panicked nilDereference :=
  ⟨rfl, rfl, rfl, rfl⟩

/-- C10, as stated, fails: on a BMC that answers the logout with an error,
`Close` returns that error wrapped in `errBMCLogout` and the manager still
holds its client. -/
theorem Close_logout_error_counterexample :
    bmc.Close { client := some sampleBmclibClient } hardwareLogoutFails liveCtx
      = (Outcome.returned (some (Wrap errBMCLogout "connection reset by peer")),
         { client := some sampleBmclibClient },
         [BmcEffect.spanStart liveCtx "bmclib.Close",
          BmcEffect.spanSetAttributes "bmc-ip" "10.0.0.5",
          BmcEffect.logout (Context.WithTimeout Context.Background logoutTimeout),
          BmcEffect.spanEnd])
    ∧ (bmc.Close { client := some sampleBmclibClient } hardwareLogoutFails liveCtx).2.1.client
      ≠ none := by
  decide

/-- C10, amended: for a manager with a live client, `Close` issues one logout
under a context derived from the background context with `logoutTimeout`;
when the logout succeeds, `Close` returns a nil error and the client is nil
afterwards; when the logout returns an error, `Close` returns it wrapped in
`errBMCLogout` and the manager keeps its client. -/
theorem Close_live_client (client : BmclibClient) (hw : Hardware) (traceCtx : Context) :
    (hw.Close client (Context.WithTimeout Context.Background logoutTimeout) = none →
      bmc.Close { client := some client } hw traceCtx
        = (Outcome.returned none, { client := none },
           [BmcEffect.spanStart traceCtx "bmclib.Close",
            BmcEffect.spanSetAttributes "bmc-ip" client.Auth.Host,
            BmcEffect.logout (Context.WithTimeout Context.Background logoutTimeout),
            BmcEffect.logDebug "bmc logout successful",
            BmcEffect.spanEnd]))
    ∧ (∀ err : GoError,
      hw.Close client (Context.WithTimeout Context.Background logoutTimeout) = some err →
      bmc.Close { client := some client } hw traceCtx
        = (Outcome.returned (some (Wrap errBMCLogout err.Error)), { client := some client },
           [BmcEffect.spanStart traceCtx "bmclib.Close",
            BmcEffect.spanSetAttributes "bmc-ip" client.Auth.Host,
            BmcEffect.logout (Context.WithTimeout Context.Background logoutTimeout),
            BmcEffect.spanEnd])) := by
  constructor
  · intro hlogout
    simp [bmc.Close, hlogout]
  · intro err hlogout
    simp [bmc.Close, hlogout]

/-- Witness of C10, amended: a BMC that accepts the logout, and one that
answers it with an error. -/
theorem Close_live_client_witness :
    (bmc.Close { client := some sampleBmclibClient } hardwareOk liveCtx).2.1.client = none
    ∧ (bmc.Close { client := some sampleBmclibClient } hardwareLogoutFails liveCtx).2.1.client
      = some sampleBmclibClient :=
  ⟨congrArg (fun r => r.2.1.client)
      ((Close_live_client sampleBmclibClient hardwareOk liveCtx).1 rfl),
   congrArg (fun r => r.2.1.client)
      ((Close_live_client sampleBmclibClient hardwareLogoutFails liveCtx).2
        (GoError.foreign "connection reset by peer") rfl)⟩

theorem loginCalls_append (xs ys : List BmcEffect) :
    loginCalls (xs ++ ys) = loginCalls xs ++ loginCalls ys := by
  induction xs with
  | nil => rfl
  | cons x rest ih => cases x <;> simp [loginCalls, ih]

/-- With an open session and a live client, `PowerStatus` opens nothing: it
issues no login and leaves the manager and the session as they are. -/
theorem PowerStatus_open_session (client : BmclibClient) (hw : Controller) (ctx : Context) :
    loginCalls (bmc.PowerStatus { client := some client } Session.Open hw ctx).2.2.2 = []
    ∧ (bmc.PowerStatus { client := some client } Session.Open hw ctx).2.1
        = { client := some client }
    ∧ (bmc.PowerStatus { client := some client } Session.Open hw ctx).2.2.1 = Session.Open := by
  cases hg : hw.GetPowerState client ctx <;>
    simp [bmc.PowerStatus, bmc.Open, bmc.loginWithRetries, hg, loginCalls]

/-- With an open session and a live client, `SetPowerState` opens nothing: it
issues no login and leaves the manager and the session as they are. -/
theorem SetPowerState_open_session (client : BmclibClient) (hw : Controller) (ctx : Context)
    (state : String) :
    loginCalls (bmc.SetPowerState { client := some client } Session.Open hw ctx state).2.2.2 = []
    ∧ (bmc.SetPowerState { client := some client } Session.Open hw ctx state).2.1
        = { client := some client }
    ∧ (bmc.SetPowerState { client := some client } Session.Open hw ctx state).2.2.1
        = Session.Open := by
  simp [bmc.SetPowerState, bmc.Open, bmc.loginWithRetries, loginCalls]

/-- C11: for a manager with a live client whose session is already open,
`Open` returns a nil error and issues no login request, and neither do the
implicit opens of `PowerStatus` and `SetPowerState`; consequently, when the
BMC accepts the first login attempt, the calls `Open`, `PowerStatus`,
`SetPowerState` in a row on a manager whose session was closed issue exactly
one login request, the one of `Open`. -/
theorem Open_already_open_no_login (client : BmclibClient) (hw : Controller)
    (ctx₁ ctx₂ ctx₃ : Context) (state : String) :
    bmc.Open { client := some client } Session.Open hw ctx₁
      = (Outcome.returned none, { client := some client }, Session.Open,
         [BmcEffect.spanStart ctx₁ "bmclib.Open",
          BmcEffect.spanSetAttributes "bmc-ip" client.Auth.Host, BmcEffect.spanEnd])
    ∧ loginCalls (bmc.Open { client := some client } Session.Open hw ctx₁).2.2.2 = []
    ∧ loginCalls (bmc.PowerStatus { client := some client } Session.Open hw ctx₂).2.2.2 = []
    ∧ loginCalls (bmc.SetPowerState { client := some client } Session.Open hw ctx₃ state).2.2.2
        = []
    ∧ (hw.Open client (Context.WithTimeout ctx₁ loginTimeout) 1 = LoginAnswer.accepted →
        (bmc.Open { client := some client } Session.Closed hw ctx₁).1 = Outcome.returned none
        ∧ loginCalls (openPowerStatusSetPowerState { client := some client } Session.Closed hw
            ctx₁ ctx₂ ctx₃ state)
          = [Context.WithTimeout ctx₁ loginTimeout]) := by
  have hopen : bmc.Open { client := some client } Session.Open hw ctx₁
      = (Outcome.returned none, { client := some client }, Session.Open,
         [BmcEffect.spanStart ctx₁ "bmclib.Open",
          BmcEffect.spanSetAttributes "bmc-ip" client.Auth.Host, BmcEffect.spanEnd]) := by
    simp [bmc.Open, bmc.loginWithRetries]
  refine ⟨hopen, ?_, (PowerStatus_open_session client hw ctx₂).1,
    (SetPowerState_open_session client hw ctx₃ state).1, ?_⟩
  · rw [hopen]
    rfl
  · intro haccepted
    have hfirst : bmc.Open { client := some client } Session.Closed hw ctx₁
        = (Outcome.returned none, { client := some client }, Session.Open,
           [BmcEffect.spanStart ctx₁ "bmclib.Open",
            BmcEffect.spanSetAttributes "bmc-ip" client.Auth.Host,
            BmcEffect.login (Context.WithTimeout ctx₁ loginTimeout), BmcEffect.spanEnd]) := by
      simp [bmc.Open, bmc.loginWithRetries, loginAttempts, loginAttemptsFrom, haccepted]
    refine ⟨by rw [hfirst], ?_⟩
    obtain ⟨hq, hqb, hqs⟩ := PowerStatus_open_session client hw ctx₂
    obtain ⟨hc, -, -⟩ := SetPowerState_open_session client hw ctx₃ state
    simp only [openPowerStatusSetPowerState, hfirst, hqb, hqs, loginCalls_append, hq, hc]
    rfl

/-- Witness of C11: a BMC that accepts every login. -/
theorem Open_already_open_no_login_witness :
    controllerOk.Open sampleBmclibClient (Context.WithTimeout liveCtx loginTimeout) 1
      = LoginAnswer.accepted
    ∧ (bmc.Open { client := some sampleBmclibClient } Session.Closed controllerOk liveCtx).1
      = Outcome.returned none
    ∧ loginCalls (openPowerStatusSetPowerState { client := some sampleBmclibClient }
        Session.Closed controllerOk liveCtx liveCtx liveCtx "off")
      = [Context.WithTimeout liveCtx loginTimeout] :=
  ⟨rfl,
   (Open_already_open_no_login sampleBmclibClient controllerOk liveCtx liveCtx liveCtx
     "off").2.2.2.2 rfl⟩

/-- C12: what `Close` does to the BMC and to the manager does not depend on
the context of the caller. For every manager, every BMC and any two caller
contexts (live or already cancelled), the way the call ends (the returned
error, or the panic on a nil client), the manager afterwards, the contexts
handed to the logout, and every effect after the start of the span are the
same; with a live client the one logout runs under a context derived from the
background context with `logoutTimeout`: not cancelled, with a deadline of one
minute. -/
theorem Close_independent_of_caller_context (b : bmc) (client : BmclibClient) (hw : Hardware)
    (ctx₁ ctx₂ : Context) :
    (bmc.Close b hw ctx₁).1 = (bmc.Close b hw ctx₂).1
    ∧ (bmc.Close b hw ctx₁).2.1 = (bmc.Close b hw ctx₂).2.1
    ∧ logoutCalls (bmc.Close b hw ctx₁).2.2 = logoutCalls (bmc.Close b hw ctx₂).2.2
    ∧ (bmc.Close b hw ctx₁).2.2.tail = (bmc.Close b hw ctx₂).2.2.tail
    ∧ logoutCalls (bmc.Close { client := some client } hw ctx₁).2.2
        = [Context.WithTimeout Context.Background logoutTimeout]
    ∧ Context.WithTimeout Context.Background logoutTimeout
        = { cancelled := false, timeout := some (60 * 1000000000) } := by
  refine ⟨?_, ?_, ?_, ?_, ?_, by decide⟩
  · cases hc : b.client with
    | none => simp [bmc.Close, hc]
    | some c =>
      cases hl : hw.Close c (Context.WithTimeout Context.Background logoutTimeout) <;>
        simp [bmc.Close, hc, hl]
  · cases hc : b.client with
    | none => simp [bmc.Close, hc]
    | some c =>
      cases hl : hw.Close c (Context.WithTimeout Context.Background logoutTimeout) <;>
        simp [bmc.Close, hc, hl]
  · cases hc : b.client with
    | none => simp [bmc.Close, hc, logoutCalls]
    | some c =>
      cases hl : hw.Close c (Context.WithTimeout Context.Background logoutTimeout) <;>
        simp [bmc.Close, hc, hl, logoutCalls]
  · cases hc : b.client with
    | none => simp [bmc.Close, hc]
    | some c =>
      cases hl : hw.Close c (Context.WithTimeout Context.Background logoutTimeout) <;>
        simp [bmc.Close, hc, hl]
  · cases hl : hw.Close client (Context.WithTimeout Context.Background logoutTimeout) <;>
      simp [bmc.Close, hl, logoutCalls]

/-- Witness of C12: a live caller context and a cancelled one, on a BMC that
accepts the logout. -/
theorem Close_independent_of_caller_context_witness :
    (bmc.Close { client := some sampleBmclibClient } hardwareOk liveCtx).1
      = (bmc.Close { client := some sampleBmclibClient } hardwareOk cancelledCtx).1
    ∧ (bmc.Close { client := some sampleBmclibClient } hardwareOk liveCtx).2.1
      = (bmc.Close { client := some sampleBmclibClient } hardwareOk cancelledCtx).2.1
    ∧ logoutCalls (bmc.Close { client := some sampleBmclibClient } hardwareOk cancelledCtx).2.2
      = [Context.WithTimeout Context.Background logoutTimeout] :=
  ⟨(Close_independent_of_caller_context { client := some sampleBmclibClient } sampleBmclibClient
      hardwareOk liveCtx cancelledCtx).1,
   (Close_independent_of_caller_context { client := some sampleBmclibClient } sampleBmclibClient
      hardwareOk liveCtx cancelledCtx).2.1,
   (Close_independent_of_caller_context { client := some sampleBmclibClient } sampleBmclibClient
      hardwareOk cancelledCtx liveCtx).2.2.2.2.1⟩

/-- The attribute that `findAttribute` returns splits the list: nothing before
it has the namespace, and it has the namespace. -/
theorem findAttribute_some_split (ns : String) (attributes : List Attributes)
    (found : Attributes) (h : findAttribute ns attributes = some found) :
    ∃ before after, attributes = before ++ found :: after
      ∧ (∀ x ∈ before, x.Namespace ≠ ns) ∧ found.Namespace = ns := by
  induction attributes with
  | nil => simp [findAttribute] at h
  | cons a rest ih =>
    by_cases ha : a.Namespace = ns
    · simp [findAttribute, ha] at h
      subst h
      exact ⟨[], rest, rfl, by simp, ha⟩
    · simp [findAttribute, ha] at h
      obtain ⟨before, after, hsplit, hbefore, hfound⟩ := ih h
      refine ⟨a :: before, after, by simp [hsplit], ?_, hfound⟩
      intro x hx
      rcases List.mem_cons.mp hx with hxa | hxb
      · rw [hxa]
        exact ha
      · exact hbefore x hxb

/-- C13: `findAttribute` returns nil exactly when no attribute of the list has
the namespace `ns`; it returns an attribute exactly when that attribute is the
first one, in list order, whose namespace is `ns`; and what follows the first
match in the list, duplicates of the namespace included, does not change the
result. -/
theorem findAttribute_first_match (ns : String) (attributes : List Attributes) :
    (findAttribute ns attributes = none ↔ ∀ a ∈ attributes, a.Namespace ≠ ns)
    ∧ (∀ found : Attributes, findAttribute ns attributes = some found ↔
        ∃ before after, attributes = before ++ found :: after
          ∧ (∀ x ∈ before, x.Namespace ≠ ns) ∧ found.Namespace = ns)
    ∧ (∀ (before after other : List Attributes) (found : Attributes),
        attributes = before ++ found :: after →
        (∀ x ∈ before, x.Namespace ≠ ns) → found.Namespace = ns →
        findAttribute ns attributes = some found
        ∧ findAttribute ns (before ++ found :: other) = some found) := by
  refine ⟨⟨?_, findAttribute_none_of_forall_ne ns attributes⟩, ?_, ?_⟩
  · intro hnone a ha hns
    induction attributes with
    | nil => simp at ha
    | cons b rest ih =>
      by_cases hb : b.Namespace = ns
      · simp [findAttribute, hb] at hnone
      · simp [findAttribute, hb] at hnone
        rcases List.mem_cons.mp ha with hab | harest
        · exact hb (hab ▸ hns)
        · exact ih hnone harest
  · intro found
    constructor
    · exact findAttribute_some_split ns attributes found
    · rintro ⟨before, after, hsplit, hbefore, hfound⟩
      rw [hsplit]
      exact findAttribute_first ns before after found hbefore hfound
  · intro before after other found hsplit hbefore hfound
    refine ⟨?_, findAttribute_first ns before other found hbefore hfound⟩
    rw [hsplit]
    exact findAttribute_first ns before after found hbefore hfound

/-- Witness of C13: a list with two attributes of the BMC namespace after a
vendor attribute; the first of the two is returned, whatever follows it. -/
theorem findAttribute_first_match_witness :
    findAttribute "sh.hollow.bmc_info"
        [vendorAttr payloadVendor, bmcAttr payloadAddress, bmcAttr payloadNotAnIP]
      = some (bmcAttr payloadAddress)
    ∧ findAttribute "sh.hollow.bmc_info"
        ([vendorAttr payloadVendor] ++ bmcAttr payloadAddress :: [])
      = some (bmcAttr payloadAddress) :=
  (findAttribute_first_match "sh.hollow.bmc_info"
    [vendorAttr payloadVendor, bmcAttr payloadAddress, bmcAttr payloadNotAnIP]).2.2
    [vendorAttr payloadVendor] [bmcAttr payloadNotAnIP] [] (bmcAttr payloadAddress)
    rfl (by decide) rfl

end Disko
